import Mathlib

/-!
Shallow embedding of src/zone-async.pipe.ts (class ZonedAsyncPipe).

The pipe holds four fields (all initialized to null):
  _latestValue, _latestReturnedValue : any
  _subscription : ISubscription | null
  _obj : Observable | null
Observables and subscription handles are modelled by their reference
identity, as natural-number ids.  Null is Option.none.  Emitted values
live in an arbitrary type V with decidable (reference) equality, matching
the strict-equality comparisons in the source.

Side effects are made explicit as an event list:
  - establishing a subscription (recording the zone context it runs in:
    the source wraps obj.subscribe in ngZone.runOutsideAngular, i.e. the
    untracked context),
  - cancelling a subscription (subscription.unsubscribe()),
  - re-entering the tracked context (ngZone.run in the value callback),
  - markForCheck (ChangeDetectorRef.markForCheck in _updateLatestValue).
Value delivery is a separate step from subscription establishment, i.e.
producers deliver asynchronously; the next-callback for a subscription
created by _subscribe(obj) closes over obj and is modelled by deliverNext
applied to that captured observable id.
-/

namespace ZonedAsync

/-- Reference identity of an Observable (the source compares observables
with strict equality only). -/
abbrev ObsId := Nat

/-- Reference identity of a subscription handle (ISubscription). -/
abbrev SubId := Nat

/-- The two scheduling contexts of NgZone: inside the Angular zone
(tracked by the zone's idle detection) or outside it (untracked). -/
inductive Ctx where
  | tracked
  | untracked
deriving DecidableEq, Repr

/-- Observable side effects of the pipe's methods. -/
inductive Ev where
  | subscribeEv (obs : ObsId) (sub : SubId) (ctx : Ctx)
  | unsubscribeEv (sub : SubId)
  | enterTracked
  | markForCheck
deriving DecidableEq, Repr

/-- The four instance fields of ZonedAsyncPipe (lines 37-41 of the
source), with null modelled as none. -/
structure PipeState (V : Type) where
  _latestValue : Option V
  _latestReturnedValue : Option V
  _subscription : Option SubId
  _obj : Option ObsId
deriving DecidableEq, Repr

/-- Field initializers of the class: every field starts out null. -/
def initState {V : Type} : PipeState V :=
  { _latestValue := none, _latestReturnedValue := none,
    _subscription := none, _obj := none }

/-- Return value of transform: either the raw value or the value wrapped
in WrappedValue.wrap (the "value changed" marker, line 73). -/
inductive RetVal (V : Type) where
  | plain (v : Option V)
  | wrapped (v : Option V)
deriving DecidableEq, Repr

/-- The value underneath an optional WrappedValue marker. -/
def RetVal.value {V : Type} : RetVal V → Option V
  | .plain v => v
  | .wrapped v => v

/-- Whether the returned value carries the WrappedValue marker. -/
def RetVal.isWrapped {V : Type} : RetVal V → Bool
  | .plain _ => false
  | .wrapped _ => true

/-- _subscribe (lines 76-89): sets _obj, then sets _subscription to the
handle returned by obj.subscribe, which the source runs inside
ngZone.runOutsideAngular — hence the subscription event is tagged with
the untracked context.  The fresh handle id is supplied by the caller
(the environment allocates subscription objects). -/
def _subscribe {V : Type} (s : PipeState V) (obj : ObsId) (fresh : SubId) :
    PipeState V × List Ev :=
  ({ s with _obj := some obj, _subscription := some fresh },
    [Ev.subscribeEv obj fresh Ctx.untracked])

/-- _dispose (lines 91-97): calls this._subscription.unsubscribe() and
nulls all four fields.  Every call site has _subscription non-null
(ngOnDestroy guards on it; the transform call site has _obj non-null and
the subscription/obj fields are some together in reachable states), so
the none branch of the match mirrors an unreachable null dereference as
an eventless clear. -/
def _dispose {V : Type} (s : PipeState V) : PipeState V × List Ev :=
  (initState,
    match s._subscription with
    | some sub => [Ev.unsubscribeEv sub]
    | none => [])

/-- The unbound branch of transform (lines 55-61): if an observable is
supplied, subscribe to it; then copy _latestValue into
_latestReturnedValue and return _latestValue unwrapped. -/
def transformUnbound {V : Type} (s : PipeState V) (obj : Option ObsId)
    (fresh : SubId) : RetVal V × PipeState V × List Ev :=
  let sub :=
    match obj with
    | some o => _subscribe s o fresh
    | none => (s, ([] : List Ev))
  (RetVal.plain sub.1._latestValue,
    { sub.1 with _latestReturnedValue := sub.1._latestValue }, sub.2)

/-- transform (lines 54-74).  When _obj is null the unbound branch runs.
When the argument differs from _obj the pipe disposes and recursively
calls transform; since _dispose nulls _obj, that recursive call always
takes the unbound branch, so it is inlined here as transformUnbound.
When the argument equals _obj, an unchanged _latestValue is returned as
is, and a changed one is recorded in _latestReturnedValue and returned
wrapped in WrappedValue.wrap. -/
def transform {V : Type} [DecidableEq V] (s : PipeState V)
    (obj : Option ObsId) (fresh : SubId) : RetVal V × PipeState V × List Ev :=
  match s._obj with
  | none => transformUnbound s obj fresh
  | some cur =>
    if obj = some cur then
      if s._latestValue = s._latestReturnedValue then
        (RetVal.plain s._latestReturnedValue, s, [])
      else
        (RetVal.wrapped s._latestValue,
          { s with _latestReturnedValue := s._latestValue }, [])
    else
      let d := _dispose s
      let t := transformUnbound d.1 obj fresh
      (t.1, t.2.1, d.2 ++ t.2.2)

/-- _updateLatestValue (lines 99-104): only if the observable captured by
the delivering callback is still the currently bound _obj does the pipe
cache the value and mark the view for check. -/
def _updateLatestValue {V : Type} (s : PipeState V) (async : ObsId)
    (value : V) : PipeState V × List Ev :=
  if s._obj = some async then
    ({ s with _latestValue := some value }, [Ev.markForCheck])
  else
    (s, [])

/-- The next-callback installed by _subscribe (line 85):
value => this.ngZone.run(() => this._updateLatestValue(obj, value)).
It first re-enters the tracked context (ngZone.run) and only then runs
_updateLatestValue; async is the observable the closure captured. -/
def deliverNext {V : Type} (s : PipeState V) (async : ObsId) (value : V) :
    PipeState V × List Ev :=
  let u := _updateLatestValue s async value
  (u.1, Ev.enterTracked :: u.2)

/-- The error-callback installed by _subscribe (line 86): e => { throw e; }.
It rethrows the error unchanged and touches no field; the returned state
is the instance state, untouched. -/
def deliverError {V E : Type} (s : PipeState V) (e : E) :
    PipeState V × Except E Unit :=
  (s, Except.error e)

/-- ngOnDestroy (lines 45-49): dispose only if a subscription exists. -/
def ngOnDestroy {V : Type} (s : PipeState V) : PipeState V × List Ev :=
  match s._subscription with
  | some _ => _dispose s
  | none => (s, [])

/-- One emission of a producer: a value or an error, following the
Observable grammar in which an error terminates the stream. -/
inductive Emission (V E : Type) where
  | next (value : V)
  | err (e : E)

/-- Processing a sequence of emissions delivered by the subscription
whose callback captured the observable async: each value goes through
deliverNext; an error runs the error callback, whose throw aborts
processing (and by the Observable contract nothing follows an error). -/
def runEmissions {V E : Type} (s : PipeState V) (async : ObsId) :
    List (Emission V E) → PipeState V × Except E Unit
  | [] => (s, Except.ok ())
  | Emission.next v :: rest => runEmissions (deliverNext s async v).1 async rest
  | Emission.err e :: _ => deliverError s e

/-- The spec's field invariant: the subscription handle is present iff
the bound source is present. -/
def subObjInv {V : Type} (s : PipeState V) : Prop :=
  s._subscription.isSome = s._obj.isSome

/-- Claim C2: the subscription event emitted by _subscribe carries the
untracked context (obj.subscribe runs under ngZone.runOutsideAngular, so
the pending producer is invisible to the zone's idle detection), and the
delivery of every value first re-enters the tracked context and only then
performs the state mutation and markForCheck of _updateLatestValue. -/
theorem c2_untracked_subscribe_tracked_delivery {V : Type}
    (s t : PipeState V) (obj : ObsId) (f : SubId) (a : ObsId) (v : V) :
    (_subscribe s obj f).2 = [Ev.subscribeEv obj f Ctx.untracked] ∧
    (deliverNext t a v).2 = Ev.enterTracked :: (_updateLatestValue t a v).2 ∧
    (deliverNext t a v).1 = (_updateLatestValue t a v).1 :=
  ⟨rfl, rfl, rfl⟩

/-- Claim C8: when the producer signals an error, the error callback
rethrows it unchanged, the state caches no further values (the remaining
emissions are never processed), and the failure propagates to the caller
as the resulting Except.error. -/
theorem c8_error_rethrown_terminates {V E : Type} (s : PipeState V)
    (a : ObsId) (e : E) (rest : List (Emission V E)) :
    runEmissions s a (Emission.err e :: rest) = (s, Except.error e) :=
  rfl

/-- Claim C1: on an unbound instance the first transform(P) returns null
(the absent value); after P delivers a value v (re-dispatched into the
tracked zone by the callback), the next transform(P) returns v wrapped
in the WrappedValue "value changed" marker and records it as returned in
_latestReturnedValue. -/
theorem c1_initial_then_emitted_value {V : Type} [DecidableEq V]
    (p : ObsId) (v : V) (f1 f2 : SubId) :
    (transform (initState : PipeState V) (some p) f1).1 = RetVal.plain none ∧
    (transform
        (deliverNext (transform (initState : PipeState V) (some p) f1).2.1 p v).1
        (some p) f2).1 = RetVal.wrapped (some v) ∧
    (transform
        (deliverNext (transform (initState : PipeState V) (some p) f1).2.1 p v).1
        (some p) f2).2.1._latestReturnedValue = some v := by
  refine ⟨rfl, ?_, ?_⟩ <;>
    simp [transform, transformUnbound, _subscribe, deliverNext,
      _updateLatestValue, initState]

/-- Claim C9: transform(null) on an unbound instance (source null and,
as in every reachable unbound state, both cached values null) returns
null, performs no subscription (no events at all), and leaves the state
exactly as it was. -/
theorem c9_render_absent_unbound {V : Type} [DecidableEq V]
    (s : PipeState V) (f : SubId) (hobj : s._obj = none)
    (hlv : s._latestValue = none) (hlr : s._latestReturnedValue = none) :
    transform s none f = (RetVal.plain none, s, []) := by
  cases s
  simp_all [transform, transformUnbound]

/-- Witness for C9 at the freshly constructed instance. -/
theorem c9_witness :
    transform (initState : PipeState Nat) none 0 =
      (RetVal.plain none, initState, []) :=
  c9_render_absent_unbound initState 0 rfl rfl rfl

/-- Claim C10: the error branch of the delivery callback rethrows the
error unchanged and modifies no binding field: the cached latest value,
the last returned value, the bound source and the subscription handle
all keep their pre-error values (no disposal or clearing happens on the
error path). -/
theorem c10_error_branch_preserves_fields {V E : Type} (s : PipeState V)
    (e : E) :
    (deliverError s e).1._latestValue = s._latestValue ∧
    (deliverError s e).1._latestReturnedValue = s._latestReturnedValue ∧
    (deliverError s e).1._obj = s._obj ∧
    (deliverError s e).1._subscription = s._subscription ∧
    (deliverError s e).2 = Except.error e :=
  ⟨rfl, rfl, rfl, rfl, rfl⟩

/-- Claim C7: on an instance bound to p, two consecutive transform(p)
calls with no delivery in between give a second result that is the same
underlying value as the first, unwrapped (no re-wrapping), and the
second call leaves the state of the first untouched. -/
theorem c7_idempotent_unchanged_read {V : Type} [DecidableEq V]
    (s : PipeState V) (p : ObsId) (f1 f2 : SubId) (hobj : s._obj = some p) :
    (transform (transform s (some p) f1).2.1 (some p) f2).1 =
      RetVal.plain (transform s (some p) f1).1.value ∧
    (transform (transform s (some p) f1).2.1 (some p) f2).2.1 =
      (transform s (some p) f1).2.1 := by
  by_cases hv : s._latestValue = s._latestReturnedValue <;>
    simp [transform, hobj, hv, RetVal.value]

/-- Witness for C7 on a bound instance holding an undelivered value. -/
theorem c7_witness :
    (transform (transform (⟨some 5, none, some 10, some 1⟩ : PipeState Nat)
        (some 1) 21).2.1 (some 1) 22).1 =
      RetVal.plain ((transform (⟨some 5, none, some 10, some 1⟩ : PipeState Nat)
        (some 1) 21).1.value) ∧
    (transform (transform (⟨some 5, none, some 10, some 1⟩ : PipeState Nat)
        (some 1) 21).2.1 (some 1) 22).2.1 =
      (transform (⟨some 5, none, some 10, some 1⟩ : PipeState Nat)
        (some 1) 21).2.1 :=
  c7_idempotent_unchanged_read ⟨some 5, none, some 10, some 1⟩ 1 21 22 rfl

/-- Claim C3: on an instance bound to p1 with handle sub1, transform(p2)
with p2 distinct from p1 emits exactly the unsubscription of sub1
followed by (hence before) the subscription to p2; and a late delivery
from p1's callback after this rebinding leaves the whole state
unaltered. -/
theorem c3_rebind_unsubscribes_then_guards {V : Type} [DecidableEq V]
    (s : PipeState V) (p1 p2 : ObsId) (sub1 f : SubId) (v : V)
    (hobj : s._obj = some p1) (hsub : s._subscription = some sub1)
    (hne : p1 ≠ p2) :
    (transform s (some p2) f).2.2 =
      [Ev.unsubscribeEv sub1, Ev.subscribeEv p2 f Ctx.untracked] ∧
    (deliverNext (transform s (some p2) f).2.1 p1 v).1 =
      (transform s (some p2) f).2.1 := by
  simp [transform, transformUnbound, _dispose, _subscribe, deliverNext,
    _updateLatestValue, hobj, hsub, Ne.symm hne, initState, hne]

/-- Witness for C3: rebinding from source 1 (handle 10) to source 2. -/
theorem c3_witness :
    (transform (⟨none, none, some 10, some 1⟩ : PipeState Nat) (some 2) 20).2.2 =
      [Ev.unsubscribeEv 10, Ev.subscribeEv 2 20 Ctx.untracked] ∧
    (deliverNext (transform (⟨none, none, some 10, some 1⟩ : PipeState Nat)
        (some 2) 20).2.1 1 7).1 =
      (transform (⟨none, none, some 10, some 1⟩ : PipeState Nat) (some 2) 20).2.1 :=
  c3_rebind_unsubscribes_then_guards ⟨none, none, some 10, some 1⟩ 1 2 10 20 7
    rfl rfl (by decide)

/-- Claim C4: ngOnDestroy on a bound instance (subscription present)
cancels that subscription and clears every field back to the initial
state, so a subsequent transform behaves exactly as on a fresh unbound
instance; ngOnDestroy on an unbound instance is a no-op, and running it
twice is the same as once (idempotent). -/
theorem c4_teardown_resets {V : Type} [DecidableEq V] (s : PipeState V)
    (sub : SubId) (hsub : s._subscription = some sub) :
    ngOnDestroy s = ((initState : PipeState V), [Ev.unsubscribeEv sub]) ∧
    (∀ (obj : Option ObsId) (f : SubId),
      transform (ngOnDestroy s).1 obj f =
        transform (initState : PipeState V) obj f) ∧
    (∀ t : PipeState V, t._subscription = none → ngOnDestroy t = (t, [])) ∧
    ngOnDestroy (ngOnDestroy s).1 = ((ngOnDestroy s).1, []) := by
  refine ⟨?_, ?_, ?_, ?_⟩
  · simp [ngOnDestroy, _dispose, hsub]
  · intro obj f
    simp [ngOnDestroy, _dispose, hsub]
  · intro t ht
    simp [ngOnDestroy, ht]
  · simp [ngOnDestroy, _dispose, hsub, initState]

/-- Witness for C4 on a bound instance. -/
theorem c4_witness :
    ngOnDestroy (⟨some 5, some 5, some 10, some 1⟩ : PipeState Nat) =
      ((initState : PipeState Nat), [Ev.unsubscribeEv 10]) ∧
    (∀ (obj : Option ObsId) (f : SubId),
      transform (ngOnDestroy
          (⟨some 5, some 5, some 10, some 1⟩ : PipeState Nat)).1 obj f =
        transform (initState : PipeState Nat) obj f) ∧
    (∀ t : PipeState Nat, t._subscription = none → ngOnDestroy t = (t, [])) ∧
    ngOnDestroy (ngOnDestroy
        (⟨some 5, some 5, some 10, some 1⟩ : PipeState Nat)).1 =
      ((ngOnDestroy (⟨some 5, some 5, some 10, some 1⟩ : PipeState Nat)).1, []) :=
  c4_teardown_resets ⟨some 5, some 5, some 10, some 1⟩ 10 rfl

/-- Claim C5: the invariant "subscription handle present iff bound
source present" holds initially and is preserved by every operation:
transform with any argument, the delivery callback, and ngOnDestroy. -/
theorem c5_sub_iff_obj {V : Type} [DecidableEq V] :
    subObjInv (initState : PipeState V) ∧
    (∀ (s : PipeState V) (obj : Option ObsId) (f : SubId),
      subObjInv s → subObjInv (transform s obj f).2.1) ∧
    (∀ (s : PipeState V) (a : ObsId) (v : V),
      subObjInv s → subObjInv (deliverNext s a v).1) ∧
    (∀ s : PipeState V, subObjInv s → subObjInv (ngOnDestroy s).1) := by
  refine ⟨rfl, ?_, ?_, ?_⟩
  · intro s obj f h
    unfold subObjInv at *
    rcases ho : s._obj with _ | cur <;>
      rcases obj with _ | o <;>
        simp_all [transform, transformUnbound, _subscribe, _dispose, initState]
    by_cases hc : o = cur <;>
      by_cases hv : s._latestValue = s._latestReturnedValue <;>
        simp_all [transform, transformUnbound, _subscribe, _dispose, initState]
  · intro s a v h
    unfold subObjInv at *
    by_cases hg : s._obj = some a <;>
      simp_all [deliverNext, _updateLatestValue]
  · intro s h
    unfold subObjInv at *
    rcases hs : s._subscription with _ | sub <;>
      simp_all [ngOnDestroy, _dispose, initState]

/-- Witness for C5: the invariant survives a concrete bind. -/
theorem c5_witness :
    subObjInv ((transform (initState : PipeState Nat) (some 1) 10).2.1) :=
  c5_sub_iff_obj.2.1 initState (some 1) 10 rfl

/-- Counterexample to claim C6 as stated: bind source 1 (handle 10),
rebind to source 2 (handle 20, cancelling 10), rebind back to source 1
(handle 30, cancelling 20).  Subscription 10 is stale and already
cancelled, yet a late delivery from its callback (which captured source
1, now again the bound source) passes the identity guard and mutates the
cached latest value. -/
theorem c6_counterexample_stale_sub_mutates :
    Ev.unsubscribeEv 10 ∈
      (transform (transform (initState : PipeState Nat) (some 1) 10).2.1
        (some 2) 20).2.2 ∧
    (transform (transform (transform (initState : PipeState Nat)
        (some 1) 10).2.1 (some 2) 20).2.1 (some 1) 30).2.1._subscription =
      some 30 ∧
    (transform (transform (transform (initState : PipeState Nat)
        (some 1) 10).2.1 (some 2) 20).2.1 (some 1) 30).2.1._obj = some 1 ∧
    (transform (transform (transform (initState : PipeState Nat)
        (some 1) 10).2.1 (some 2) 20).2.1 (some 1) 30).2.1._latestValue =
      none ∧
    (deliverNext (transform (transform (transform (initState : PipeState Nat)
        (some 1) 10).2.1 (some 2) 20).2.1 (some 1) 30).2.1
        1 99).1._latestValue = some 99 := by
  decide

/-- Claim C6 amended: the delivery guard compares source identity, not
subscription identity — the cached latest value is mutated by a delivery
exactly when the source captured by the delivering callback equals the
currently bound source (so a stale cancelled subscription whose captured
source differs from the current one never mutates it, but one whose
source has been rebound as current does); and no other operation ever
caches a delivered value: transform and ngOnDestroy either keep
_latestValue or clear it to null. -/
theorem c6_amended_guard_by_source {V : Type} [DecidableEq V]
    (s : PipeState V) (async : ObsId) (v : V) (obj : Option ObsId)
    (f : SubId) :
    (deliverNext s async v).1 =
      (if s._obj = some async then { s with _latestValue := some v } else s) ∧
    ((transform s obj f).2.1._latestValue = s._latestValue ∨
      (transform s obj f).2.1._latestValue = none) ∧
    ((ngOnDestroy s).1._latestValue = s._latestValue ∨
      (ngOnDestroy s).1._latestValue = none) := by
  refine ⟨?_, ?_, ?_⟩
  · by_cases hg : s._obj = some async <;> simp [deliverNext, _updateLatestValue, hg]
  · rcases ho : s._obj with _ | cur <;>
      rcases obj with _ | o <;>
        simp_all [transform, transformUnbound, _subscribe, _dispose, initState]
    by_cases hc : o = cur <;>
      by_cases hv : s._latestValue = s._latestReturnedValue <;>
        simp_all [transform, transformUnbound, _subscribe, _dispose, initState]
  · rcases hs : s._subscription with _ | sub <;>
      simp_all [ngOnDestroy, _dispose, initState]

end ZonedAsync
